import Mathlib

/-!
Verification of the live-polling server core (`src/api` of dw4085/live-polling-app).

The Python handlers are shallowly embedded: JSON request bodies become
association lists over a `JValue` type with Python truthiness, the relational
store (Supabase) becomes a record of row lists with an explicit id counter, and
each HTTP handler becomes a pure Lean function from a request and a store state
to a response and a new store state.  External libraries (jose JWT, bcrypt,
hashlib, the Supabase query interface, the `secrets` random source) are modelled
by explicit parameters or small executable stand-ins, documented at each
definition.
-/

namespace LivePoll

/-! ## JSON values and Python truthiness -/

/-- A JSON value as the Python handlers see it after `json.loads`. -/
inductive JValue where
  | jnull
  | jbool (b : Bool)
  | jint (n : Int)
  | jstr (s : String)
  | jlist (xs : List JValue)
  | jdict (fields : List (String × JValue))

/-- Python truthiness: `None`, `False`, `0`, `""`, `[]`, `{}` are falsy. -/
def JValue.truthy : JValue → Bool
  | .jnull => false
  | .jbool b => b
  | .jint n => n != 0
  | .jstr s => s != ""
  | .jlist xs => !xs.isEmpty
  | .jdict fs => !fs.isEmpty

def JValue.isStr : JValue → Bool
  | .jstr _ => true
  | _ => false

/-- The string content of a value; non-strings give `""` (the handlers only
apply this after a truthiness/`isinstance` guard has ensured a string). -/
def JValue.asStr : JValue → String
  | .jstr s => s
  | _ => ""

/-- The integer content of a value; non-integers give `0` (ids reaching the
store queries have passed a truthiness check, so `0` never occurs there). -/
def JValue.asInt : JValue → Int
  | .jint n => n
  | _ => 0

/-- Python `len` on the values the validators apply it to (strings and lists);
other arguments would raise `TypeError` in Python and are outside the modelled
domain. -/
def pyLen : JValue → Nat
  | .jstr s => s.length
  | .jlist xs => xs.length
  | _ => 0

/-- `data.get(key)` on a parsed JSON object: the value if present, else
`None`. -/
def jget (data : List (String × JValue)) (key : String) : JValue :=
  match data.find? (fun kv => kv.fst == key) with
  | some kv => kv.snd
  | none => .jnull

/-! ## validation.py -/

/-- `ValidationResult` named tuple from `api/utils/validation.py`. -/
structure ValidationResult where
  valid : Bool
  errors : Option (List String)
  deriving Repr, DecidableEq

/-- `ValidationResult(valid=len(errors) == 0, errors=errors if errors else None)`. -/
def mkValidationResult (errs : List String) : ValidationResult :=
  ⟨errs.isEmpty, if errs.isEmpty then none else some errs⟩

/-- Character class `[a-z0-9-]`. -/
def slugChar (c : Char) : Bool :=
  (97 ≤ c.toNat && c.toNat ≤ 122) || (48 ≤ c.toNat && c.toNat ≤ 57) || c.toNat == 45

/-- One or more characters of the class, over a character list. -/
def slug_core (l : List Char) : Bool :=
  !l.isEmpty && l.all slugChar

/-- Model of Python `re.match(r"^[a-z0-9-]+$", s)` viewed as a Boolean: the
whole string is one or more `[a-z0-9-]` characters, where (as with Python's
`$`) a single trailing newline is also accepted. -/
def re_match_slug (s : String) : Bool :=
  slug_core s.toList ||
    (match s.toList.getLast? with
     | some c => c == '\n' && slug_core s.toList.dropLast
     | none => false)

/-- `validate_poll_data` from `api/utils/validation.py`.  Each `if/elif` chain
of the source contributes its messages in source order. -/
def validate_poll_data (data : List (String × JValue)) : ValidationResult :=
  let title := jget data "title"
  let titleErrs :=
    if !title.truthy || !title.isStr then ["Title is required"]
    else if title.asStr.length > 255 then ["Title must be 255 characters or less"]
    else []
  let slug := jget data "slug"
  let slugErrs :=
    if slug.truthy then
      if !slug.isStr then ["Slug must be a string"]
      else if !re_match_slug slug.asStr then
        ["Slug can only contain lowercase letters, numbers, and hyphens"]
      else if slug.asStr.length > 100 then ["Slug must be 100 characters or less"]
      else []
    else []
  let password := jget data "password"
  let passwordErrs :=
    if password.truthy && pyLen password < 4 then
      ["Password must be at least 4 characters"]
    else []
  mkValidationResult (titleErrs ++ slugErrs ++ passwordErrs)

/-- The fixed chart-type enum. -/
def chart_types : List String := ["horizontal_bar", "vertical_bar", "pie", "donut"]

/-- `chart_type in ["horizontal_bar", ...]`: Python membership, true only for
one of the four enum strings. -/
def isChartType (v : JValue) : Bool :=
  match v with
  | .jstr s => chart_types.contains s
  | _ => false

/-- One loop step of the answer-option check: an entry fails when it is not a
dict or its `option_text` is falsy. -/
def bad_option (opt : JValue) : Bool :=
  match opt with
  | .jdict fs => !(jget fs "option_text").truthy
  | _ => true

/-- The `for i, opt in enumerate(answer_options)` loop: one message per bad
entry, numbered from 1. -/
def option_text_errors (opts : List JValue) : List String :=
  opts.enum.filterMap (fun p =>
    if bad_option p.snd then
      some ("Answer option " ++ toString (p.fst + 1) ++ " must have option_text")
    else none)

/-- `validate_question_data` from `api/utils/validation.py`. -/
def validate_question_data (data : List (String × JValue)) : ValidationResult :=
  let pollIdErrs := if !(jget data "poll_id").truthy then ["Poll ID is required"] else []
  let qt := jget data "question_text"
  let qtErrs := if !qt.truthy || !qt.isStr then ["Question text is required"] else []
  let ct := jget data "chart_type"
  let ctErrs := if ct.truthy && !isChartType ct then ["Invalid chart type"] else []
  let ao := jget data "answer_options"
  let aoErrs :=
    if ao.truthy then
      match ao with
      | .jlist opts =>
        if opts.length < 2 then ["At least 2 answer options are required"]
        else option_text_errors opts
      | _ => ["Answer options must be a list"]
    else []
  mkValidationResult (pollIdErrs ++ qtErrs ++ ctErrs ++ aoErrs)

/-- `validate_response_data` from `api/utils/validation.py`: the three fields
are required, where "missing" is Python falsiness of `data.get(...)`. -/
def validate_response_data (data : List (String × JValue)) : ValidationResult :=
  mkValidationResult
    ((if !(jget data "session_token").truthy then ["Session token is required"] else []) ++
     (if !(jget data "question_id").truthy then ["Question ID is required"] else []) ++
     (if !(jget data "answer_option_id").truthy then ["Answer option ID is required"] else []))

/-! ## The relational store

Model of the Supabase tables the handlers touch.  Select/insert/update chains
are translated at each call site: `.eq(...).single().execute()` becomes
`List.find?` (first matching row, or none), `.eq(...).execute()` becomes
`List.filter` with `data[0]` as `head?`, and `insert` appends a row whose id the
store assigns from a counter. -/

structure PollRow where
  id : Int
  title : String
  slug : Option String
  access_code : String
  password_hash : Option String
  state : String
  results_revealed : Bool
  deriving Repr, DecidableEq

structure QuestionRow where
  id : Int
  poll_id : Int
  question_text : String
  question_order : Nat
  chart_type : String
  deriving Repr, DecidableEq

structure AnswerOptionRow where
  id : Int
  question_id : Int
  option_text : String
  option_order : Nat
  deriving Repr, DecidableEq

structure SessionRow where
  id : Int
  poll_id : Int
  session_token : String
  deriving Repr, DecidableEq

structure ResponseRow where
  id : Int
  session_id : Int
  question_id : Int
  answer_option_id : Int
  deriving Repr, DecidableEq

structure DB where
  polls : List PollRow
  questions : List QuestionRow
  answer_options : List AnswerOptionRow
  sessions : List SessionRow
  responses : List ResponseRow
  next_id : Int
  deriving Repr, DecidableEq

/-! ## HTTP requests and responses -/

/-- An incoming request as the handlers consume it: the method, the
`Authorization` header after `request.headers.get("Authorization", "")`, and
the JSON body (`none` models a body `json.loads` rejects). -/
structure Request where
  method : String
  authorization : String
  body : Option (List (String × JValue))

/-- The JSON payloads the handlers return (`api/utils/responses.py` wraps them
uniformly; CORS headers carry no information and are omitted). -/
inductive RespBody where
  | errorMsg (msg : String)
  | empty
  | submitOk (success : Bool)
  | sessionOk (session_id : Int)
  | loginOk (token : String)
  | verifyOk (valid : Bool)
  | pollOk (id : Int) (title : String) (access_code : String) (slug : Option String)
      (state : String) (results_revealed : Bool)
  | questionOk (q : QuestionRow) (answer_opts : Option (List AnswerOptionRow))
  deriving Repr, DecidableEq

structure HResponse where
  statusCode : Nat
  body : RespBody
  deriving Repr, DecidableEq

/-- `error_response` from `api/utils/responses.py`. -/
def error_response (status : Nat) (msg : String) : HResponse :=
  ⟨status, .errorMsg msg⟩

/-- `options_response` from `api/utils/responses.py`: 204 with no body. -/
def options_response : HResponse :=
  ⟨204, .empty⟩

/-- `", ".join(validation.errors or [])`. -/
def joinComma (errs : Option (List String)) : String :=
  String.intercalate ", " (errs.getD [])

/-! ## auth.py

The jose JWT library and the hash primitives are external; tokens are modelled
as `secret|sub|exp|iat` strings (`String.splitOn "|"` pieces never contain the
separator, so decoding recovers exactly the encoded claims and fails on any
other string), and the hash functions and the clock are fields of a
configuration record standing for the process environment. -/

structure JwtPayload where
  sub : String
  exp : Int
  iat : Int
  deriving Repr, DecidableEq

/-- Python `str.startswith` on the character sequence. -/
def str_starts_with (s pre : String) : Bool :=
  pre.data.isPrefixOf s.data

/-- Python slicing `s[n:]` on the character sequence. -/
def str_drop (s : String) (n : Nat) : String :=
  String.mk (s.data.drop n)

/-- Splitting a character sequence at `|` separators; the resulting pieces
never contain the separator. -/
def split_on_bar : List Char → List (List Char)
  | [] => [[]]
  | c :: rest =>
    if c = '|' then [] :: split_on_bar rest
    else
      match split_on_bar rest with
      | h :: t => (c :: h) :: t
      | [] => [[c]]

def charDigit? (c : Char) : Option Nat :=
  if 48 ≤ c.toNat ∧ c.toNat ≤ 57 then some (c.toNat - 48) else none

def natOfDigits : List Char → Nat → Option Nat
  | [], acc => some acc
  | c :: rest, acc =>
    match charDigit? c with
    | some d => natOfDigits rest (acc * 10 + d)
    | none => none

/-- Decimal integer parsing over a character sequence (an optional leading
minus sign, then one or more digits). -/
def parseInt? (l : List Char) : Option Int :=
  match l with
  | [] => none
  | '-' :: rest =>
    match rest with
    | [] => none
    | _ => (natOfDigits rest 0).map (fun n => -(n : Int))
  | _ => (natOfDigits l 0).map (fun n => (n : Int))

/-- Model of `jwt.encode(payload, secret, algorithm="HS256")`. -/
def jwtEncode (secret sub : String) (exp iat : Int) : String :=
  secret ++ "|" ++ sub ++ "|" ++ toString exp ++ "|" ++ toString iat

/-- Model of `jwt.decode(token, secret, algorithms=["HS256"])`: `none` stands
for a raised `JWTError`, covering malformed tokens, a signature made with a
different secret, and an `exp` claim at or before the current time. -/
def jwtDecode (token secret : String) (now : Int) : Option JwtPayload :=
  match split_on_bar token.data with
  | [s, sub, e, i] =>
    match parseInt? e, parseInt? i with
    | some exp, some iat =>
      if String.mk s = secret ∧ now < exp then some ⟨String.mk sub, exp, iat⟩ else none
    | _, _ => none
  | _ => none

/-- The process environment and external primitives `api/utils/auth.py` reads:
`ADMIN_PASSWORD_HASH`, a model of `hashlib.sha256(...).hexdigest()`,
`JWT_SECRET`, a model of `bcrypt.hashpw` with its salt draw fixed, and the
current time in seconds. -/
structure AuthConfig where
  admin_password_hash : Option String
  sha256_hex : String → String
  jwt_secret : String
  bcrypt_hash : String → String
  now : Int

/-- `AuthResult` named tuple from `api/utils/auth.py`. -/
structure AuthResult where
  success : Bool
  error : Option String
  deriving Repr, DecidableEq

/-- `verify_admin_password`: with no configured hash the development fallback
compares against the literal `"admin"`, otherwise the SHA256 hex digest is
compared with the stored hash. -/
def verify_admin_password (cfg : AuthConfig) (password : String) : Bool :=
  match cfg.admin_password_hash with
  | none => password = "admin"
  | some stored => cfg.sha256_hex password = stored

def JWT_EXPIRY_HOURS : Int := 24

/-- `create_admin_token`: subject `"admin"`, expiry 24 hours after issue. -/
def create_admin_token (cfg : AuthConfig) : String :=
  jwtEncode cfg.jwt_secret "admin" (cfg.now + JWT_EXPIRY_HOURS * 3600) cfg.now

/-- `verify_admin_token`: require the `Bearer ` prefix, decode the remainder,
and check the subject.  The Python error message interpolates the caught
exception; the model keeps a fixed message for that branch. -/
def verify_admin_token (cfg : AuthConfig) (req : Request) : AuthResult :=
  if str_starts_with req.authorization "Bearer " then
    match jwtDecode (str_drop req.authorization 7) cfg.jwt_secret cfg.now with
    | none => ⟨false, some "Token verification failed"⟩
    | some payload =>
      if payload.sub = "admin" then ⟨true, none⟩
      else ⟨false, some "Invalid token subject"⟩
  else ⟨false, some "Missing or invalid Authorization header"⟩

/-- `hash_password` delegates to bcrypt. -/
def hash_password (cfg : AuthConfig) (password : String) : String :=
  cfg.bcrypt_hash password

/-! ## api/admin/login.py and api/admin/verify.py -/

/-- Handler of `POST /api/admin/login`. -/
def login_handler (cfg : AuthConfig) (req : Request) : HResponse :=
  if req.method = "OPTIONS" then options_response
  else if req.method ≠ "POST" then error_response 405 "Method not allowed"
  else
    match req.body with
    | none => error_response 400 "Invalid JSON"
    | some body =>
      let password := jget body "password"
      if password.truthy then
        if verify_admin_password cfg password.asStr then
          ⟨200, .loginOk (create_admin_token cfg)⟩
        else error_response 401 "Invalid password"
      else error_response 400 "Password is required"

/-- Handler of `GET /api/admin/verify`. -/
def verify_handler (cfg : AuthConfig) (req : Request) : HResponse :=
  if req.method = "OPTIONS" then options_response
  else if req.method ≠ "GET" then error_response 405 "Method not allowed"
  else
    let result := verify_admin_token cfg req
    if result.success then ⟨200, .verifyOk true⟩
    else ⟨200, .verifyOk false⟩

/-! ## api/polls/create.py -/

/-- The slug value as it reaches the poll insert (a non-string slug is falsy
here by validation and stored as absent). -/
def slugStoredOf (v : JValue) : Option String :=
  match v with
  | .jstr s => some s
  | _ => none

/-- The alphabet literal of `generate_access_code`. -/
def access_code_alphabet : String := "abcdefghjkmnpqrstuvwxyz23456789"

/-- `generate_access_code(length=8)` at its only call pattern (the default
length).  `secrets.choice(alphabet)` is modelled by an injected entropy stream
`rand`: draw `j` of this call reads `rand (pos + j)` and reduces it into the
alphabet. -/
def generate_access_code (rand : Nat → Nat) (pos : Nat) : String :=
  String.mk ((List.range 8).map (fun j =>
    access_code_alphabet.toList.getD (rand (pos + j) % access_code_alphabet.toList.length) 'a'))

/-- The `while True` uniqueness loop of the poll-create handler: regenerate
until no stored poll carries the candidate code.  The source loop is unbounded;
`fuel` bounds the recursion and `none` stands for non-termination. -/
def find_unique_code (polls : List PollRow) (rand : Nat → Nat) : Nat → Nat → Option String
  | 0, _ => none
  | fuel + 1, pos =>
    let code := generate_access_code rand pos
    if polls.any (fun p => p.access_code == code) then
      find_unique_code polls rand fuel (pos + 8)
    else some code

/-- Handler of `POST /api/polls/create`.  Returns `none` only when the
access-code loop runs out of fuel. -/
def polls_create_handler (cfg : AuthConfig) (req : Request) (db : DB)
    (rand : Nat → Nat) (fuel : Nat) : Option (HResponse × DB) :=
  if req.method = "OPTIONS" then some (options_response, db)
  else if req.method ≠ "POST" then some (error_response 405 "Method not allowed", db)
  else
    let auth := verify_admin_token cfg req
    if auth.success then
      match req.body with
      | none => some (error_response 400 "Invalid JSON", db)
      | some body =>
        let validation := validate_poll_data body
        if validation.valid then
          let slug := jget body "slug"
          let conflict := slug.truthy && db.polls.any (fun p => p.slug == some slug.asStr)
          if conflict then some (error_response 409 "Slug already in use", db)
          else
            match find_unique_code db.polls rand fuel 0 with
            | none => none
            | some access_code =>
              let slugStored : Option String := slugStoredOf slug
              let password := jget body "password"
              let row : PollRow :=
                { id := db.next_id
                  title := (jget body "title").asStr
                  slug := slugStored
                  access_code := access_code
                  password_hash :=
                    if password.truthy then some (hash_password cfg password.asStr) else none
                  state := "draft"
                  results_revealed := false }
              some (⟨201, .pollOk row.id row.title row.access_code row.slug row.state
                      row.results_revealed⟩,
                { db with polls := db.polls ++ [row], next_id := db.next_id + 1 })
        else some (error_response 400 (joinComma validation.errors), db)
    else some (error_response 401 (auth.error.getD "Unauthorized"), db)

/-! ## api/questions/create.py -/

/-- `body.get("chart_type", "horizontal_bar")` as it reaches the insert.  A
validated body has a chart type that is either one of the enum strings or
falsy; the model maps every non-string to the default. -/
def chartTypeOf (v : JValue) : String :=
  match v with
  | .jstr s => s
  | _ => "horizontal_bar"

/-- `option_text` of one entry of `answer_options`. -/
def optionTextOf (v : JValue) : String :=
  (match v with
   | .jdict fs => jget fs "option_text"
   | _ => .jnull).asStr

/-- Handler of `POST /api/questions/create`. -/
def questions_create_handler (cfg : AuthConfig) (req : Request) (db : DB) :
    HResponse × DB :=
  if req.method = "OPTIONS" then (options_response, db)
  else if req.method ≠ "POST" then (error_response 405 "Method not allowed", db)
  else
    let auth := verify_admin_token cfg req
    if auth.success then
      match req.body with
      | none => (error_response 400 "Invalid JSON", db)
      | some body =>
        let validation := validate_question_data body
        if validation.valid then
          let poll_id := (jget body "poll_id").asInt
          match db.polls.find? (fun p => p.id == poll_id) with
          | none => (error_response 404 "Poll not found", db)
          | some _ =>
            let next_order : Nat :=
              match ((db.questions.filter (fun q => q.poll_id == poll_id)).map
                  (fun q => q.question_order)).max? with
              | some m => m + 1
              | none => 0
            let q : QuestionRow :=
              { id := db.next_id
                poll_id := poll_id
                question_text := (jget body "question_text").asStr
                question_order := next_order
                chart_type := chartTypeOf (jget body "chart_type") }
            let db2 := { db with questions := db.questions ++ [q], next_id := db.next_id + 1 }
            match jget body "answer_options" with
            | .jlist opts =>
              if opts.isEmpty then (⟨201, .questionOk q none⟩, db2)
              else
                let options_data := opts.enum.map (fun p =>
                  AnswerOptionRow.mk (db2.next_id + p.fst) q.id (optionTextOf p.snd) p.fst)
                (⟨201, .questionOk q (some options_data)⟩,
                  { db2 with
                    answer_options := db2.answer_options ++ options_data
                    next_id := db2.next_id + opts.length })
            | _ => (⟨201, .questionOk q none⟩, db2)
        else (error_response 400 (joinComma validation.errors), db)
    else (error_response 401 (auth.error.getD "Unauthorized"), db)

/-! ## api/sessions/create.py -/

/-- Handler of `POST /api/sessions/create`. -/
def sessions_create_handler (req : Request) (db : DB) : HResponse × DB :=
  if req.method = "OPTIONS" then (options_response, db)
  else if req.method ≠ "POST" then (error_response 405 "Method not allowed", db)
  else
    match req.body with
    | none => (error_response 400 "Invalid JSON", db)
    | some body =>
      let poll_id := jget body "poll_id"
      let session_token := jget body "session_token"
      if poll_id.truthy && session_token.truthy then
        match db.polls.find? (fun p => p.id == poll_id.asInt) with
        | none => (error_response 404 "Poll not found", db)
        | some poll =>
          if poll.state ≠ "open" then
            (error_response 403 "Poll is not accepting responses", db)
          else
            match (db.sessions.filter
                (fun s => s.session_token == session_token.asStr)).head? with
            | some s => (⟨200, .sessionOk s.id⟩, db)
            | none =>
              let row : SessionRow := ⟨db.next_id, poll_id.asInt, session_token.asStr⟩
              (⟨201, .sessionOk row.id⟩,
                { db with sessions := db.sessions ++ [row], next_id := db.next_id + 1 })
      else (error_response 400 "poll_id and session_token are required", db)

/-! ## api/responses/submit.py -/

/-- Handler of `POST /api/responses/submit`. -/
def responses_submit_handler (req : Request) (db : DB) : HResponse × DB :=
  if req.method = "OPTIONS" then (options_response, db)
  else if req.method ≠ "POST" then (error_response 405 "Method not allowed", db)
  else
    match req.body with
    | none => (error_response 400 "Invalid JSON", db)
    | some body =>
      let validation := validate_response_data body
      if validation.valid then
        let session_token := (jget body "session_token").asStr
        let question_id := (jget body "question_id").asInt
        let answer_option_id := (jget body "answer_option_id").asInt
        match db.sessions.find? (fun s => s.session_token == session_token) with
        | none => (error_response 404 "Session not found", db)
        | some session =>
          match db.polls.find? (fun p => p.id == session.poll_id) with
          | none => (error_response 403 "Poll is not accepting responses", db)
          | some poll =>
            if poll.state ≠ "open" then
              (error_response 403 "Poll is not accepting responses", db)
            else
              match db.questions.find?
                  (fun q => q.id == question_id && q.poll_id == session.poll_id) with
              | none => (error_response 404 "Question not found", db)
              | some _ =>
                match db.answer_options.find?
                    (fun o => o.id == answer_option_id && o.question_id == question_id) with
                | none => (error_response 404 "Answer option not found", db)
                | some _ =>
                  match (db.responses.filter
                      (fun r => r.session_id == session.id && r.question_id == question_id)).head? with
                  | some ex =>
                    (⟨200, .submitOk true⟩,
                      { db with responses := db.responses.map (fun r =>
                          if r.id == ex.id then { r with answer_option_id := answer_option_id }
                          else r) })
                  | none =>
                    let row : ResponseRow :=
                      ⟨db.next_id, session.id, question_id, answer_option_id⟩
                    (⟨200, .submitOk true⟩,
                      { db with responses := db.responses ++ [row], next_id := db.next_id + 1 })
      else (error_response 400 (joinComma validation.errors), db)

/-! ## Shared concrete inputs and general helper lemmas -/

/-- A concrete environment for witnesses: development configuration (no stored
admin hash), identity stand-ins for the hash primitives, clock at 1000. -/
def idCfg : AuthConfig := ⟨none, fun s => s, "s3cret", fun s => s, 1000⟩

/-- An empty store whose id counter starts at 1. -/
def emptyDB : DB := ⟨[], [], [], [], [], 1⟩

lemma generate_access_code_length (rand : Nat → Nat) (pos : Nat) :
    (generate_access_code rand pos).length = 8 := by
  show (List.map _ (List.range 8)).length = 8
  rw [List.length_map, List.length_range]

lemma generate_access_code_mem (rand : Nat → Nat) (pos : Nat) :
    ∀ c ∈ (generate_access_code rand pos).toList, c ∈ access_code_alphabet.toList := by
  intro c hc
  have hc' : c ∈ (List.range 8).map (fun j =>
      access_code_alphabet.data.getD (rand (pos + j) % access_code_alphabet.data.length) 'a') := hc
  rw [List.mem_map] at hc'
  obtain ⟨j, -, rfl⟩ := hc'
  have hlt : rand (pos + j) % access_code_alphabet.data.length <
      access_code_alphabet.data.length := Nat.mod_lt _ (by decide)
  rw [List.getD_eq_getElem _ _ hlt]
  exact List.getElem_mem hlt

/-! ## C4 -/

/-- C4 (amended for the alphabet size): every code the uniqueness loop of the
poll-create handler returns has exactly 8 characters drawn from the generator's
31-symbol alphabet, which contains none of the visually ambiguous characters
`0`, `O`, `1`, `l`, `i`; and at the moment the loop exits, the existence check
holds for no stored poll. -/
theorem C4_access_code_postcondition (polls : List PollRow) (rand : Nat → Nat)
    (fuel pos : Nat) (code : String)
    (h : find_unique_code polls rand fuel pos = some code) :
    code.length = 8 ∧
    (∀ c ∈ code.toList, c ∈ access_code_alphabet.toList) ∧
    access_code_alphabet.length = 31 ∧
    (∀ c ∈ access_code_alphabet.toList, c ∉ ['0', 'O', '1', 'l', 'i']) ∧
    polls.any (fun p => p.access_code == code) = false := by
  induction fuel generalizing pos with
  | zero => simp [find_unique_code] at h
  | succ n ih =>
    rw [find_unique_code] at h
    split at h
    · exact ih _ h
    · rename_i hex
      rw [Option.some_inj] at h
      subst h
      exact ⟨generate_access_code_length rand pos, generate_access_code_mem rand pos,
        by decide, by decide, by simpa using hex⟩

/-- C4 witness: the loop exits on the first candidate over an empty store with
an all-zero entropy stream, and the postcondition evaluates there. -/
theorem C4_access_code_postcondition_witness :
    ("aaaaaaaa" : String).length = 8 ∧
    (∀ c ∈ ("aaaaaaaa" : String).toList, c ∈ access_code_alphabet.toList) ∧
    access_code_alphabet.length = 31 ∧
    (∀ c ∈ access_code_alphabet.toList, c ∉ ['0', 'O', '1', 'l', 'i']) ∧
    ([] : List PollRow).any (fun p => p.access_code == "aaaaaaaa") = false :=
  C4_access_code_postcondition [] (fun _ => 0) 1 0 "aaaaaaaa" (by decide)

/-- C4 counterexample: the claim puts the alphabet at 32 symbols, but the
source alphabet literal has 31 characters. -/
theorem C4_counterexample :
    access_code_alphabet.length = 31 ∧ ¬ access_code_alphabet.length = 32 := by
  decide

/-! ## C5 -/

/-- The title block of `validate_poll_data` in isolation. -/
def title_errors (data : List (String × JValue)) : List String :=
  let title := jget data "title"
  if !title.truthy || !title.isStr then ["Title is required"]
  else if title.asStr.length > 255 then ["Title must be 255 characters or less"]
  else []

/-- The slug block of `validate_poll_data` in isolation. -/
def slug_errors (data : List (String × JValue)) : List String :=
  let slug := jget data "slug"
  if slug.truthy then
    if !slug.isStr then ["Slug must be a string"]
    else if !re_match_slug slug.asStr then
      ["Slug can only contain lowercase letters, numbers, and hyphens"]
    else if slug.asStr.length > 100 then ["Slug must be 100 characters or less"]
    else []
  else []

/-- The password block of `validate_poll_data` in isolation. -/
def password_errors (data : List (String × JValue)) : List String :=
  if (jget data "password").truthy && pyLen (jget data "password") < 4 then
    ["Password must be at least 4 characters"]
  else []

/-- C5 (amended): poll validation accumulates across fields — the error list is
the concatenation of what the title, slug and password blocks each report, so a
body with several invalid fields gets one message per invalid field — but each
field's block is an if/elif chain contributing at most one message, so within a
single field only the first violated rule is reported. -/
theorem C5_per_field_accumulation (data : List (String × JValue)) :
    validate_poll_data data =
      mkValidationResult (title_errors data ++ slug_errors data ++ password_errors data) ∧
    (title_errors data).length ≤ 1 ∧
    (slug_errors data).length ≤ 1 ∧
    (password_errors data).length ≤ 1 := by
  refine ⟨rfl, ?_, ?_, ?_⟩
  · simp only [title_errors]
    split
    · simp
    · split <;> simp
  · simp only [slug_errors]
    split
    · split
      · simp
      · split
        · simp
        · split <;> simp
    · simp
  · simp only [password_errors]
    split <;> simp

/-- A slug that violates two documented rules at once: it contains capital
letters (pattern violation) and has 101 characters (length violation). -/
def longBadSlug : String := String.mk (List.replicate 101 'A')

def C5_cex_body : List (String × JValue) :=
  [("title", .jstr "Live poll"), ("slug", .jstr longBadSlug)]

/-- C5 counterexample: on a body whose slug breaks both the pattern rule and
the 100-character bound, the validator reports only the pattern message, not
one message per violated rule. -/
theorem C5_counterexample :
    re_match_slug longBadSlug = false ∧
    100 < longBadSlug.length ∧
    validate_poll_data C5_cex_body =
      ⟨false, some ["Slug can only contain lowercase letters, numbers, and hyphens"]⟩ := by
  decide

/-! ## C10 -/

/-- C10: the public validation layer reads every falsy value as missing — the
falsy JSON values are exactly those Python treats as absent; a response body
whose `session_token`, `question_id` or `answer_option_id` is falsy fails
validation naming that field; a session-creation body with falsy `poll_id` or
`session_token` gets the 400 "required" error; and an admin login whose
password is falsy (for instance the empty string) gets 400 "Password is
required" rather than 401. -/
theorem C10_falsy_means_missing :
    (JValue.jnull.truthy = false ∧ (JValue.jstr "").truthy = false ∧
      (JValue.jint 0).truthy = false ∧ (JValue.jbool false).truthy = false) ∧
    (∀ data, (jget data "session_token").truthy = false →
      (validate_response_data data).valid = false ∧
      "Session token is required" ∈ (validate_response_data data).errors.getD []) ∧
    (∀ data, (jget data "question_id").truthy = false →
      (validate_response_data data).valid = false ∧
      "Question ID is required" ∈ (validate_response_data data).errors.getD []) ∧
    (∀ data, (jget data "answer_option_id").truthy = false →
      (validate_response_data data).valid = false ∧
      "Answer option ID is required" ∈ (validate_response_data data).errors.getD []) ∧
    (∀ req body db, req.method = "POST" → req.body = some body →
      ((jget body "poll_id").truthy = false ∨ (jget body "session_token").truthy = false) →
      sessions_create_handler req db =
        (error_response 400 "poll_id and session_token are required", db)) ∧
    (∀ cfg req body, req.method = "POST" → req.body = some body →
      (jget body "password").truthy = false →
      login_handler cfg req = error_response 400 "Password is required") := by
  refine ⟨by decide, ?_, ?_, ?_, ?_, ?_⟩
  · intro data ht
    simp [validate_response_data, mkValidationResult, ht]
  · intro data ht
    simp [validate_response_data, mkValidationResult, ht]
  · intro data ht
    simp [validate_response_data, mkValidationResult, ht]
  · intro req body db hm hb hfalsy
    rcases hfalsy with hf | hf <;>
      simp [sessions_create_handler, hm, hb, hf]
  · intro cfg req body hm hb hf
    simp [login_handler, hm, hb, hf]

/-- C10 witness: concrete falsy inputs exercising each clause. -/
theorem C10_falsy_means_missing_witness :
    (validate_response_data [("session_token", .jstr ""), ("question_id", .jint 0),
        ("answer_option_id", .jnull)]).valid = false ∧
    sessions_create_handler
        ⟨"POST", "", some [("poll_id", .jstr ""), ("session_token", .jstr "tok")]⟩ emptyDB =
      (error_response 400 "poll_id and session_token are required", emptyDB) ∧
    login_handler idCfg ⟨"POST", "", some [("password", .jstr "")]⟩ =
      error_response 400 "Password is required" :=
  ⟨(C10_falsy_means_missing.2.1 _ (by decide)).1,
   C10_falsy_means_missing.2.2.2.2.1 _ _ _ rfl rfl (Or.inl (by decide)),
   C10_falsy_means_missing.2.2.2.2.2 _ _ _ rfl rfl (by decide)⟩

/-! ## C8 -/

/-- C8: for every GET request — whatever the Authorization header holds — the
admin-verify handler answers 200 with a `valid` Boolean body, and `valid` is
true exactly when the header carries a bearer token that decodes under the
configured secret as an unexpired claim whose subject is `"admin"`. -/
lemma verify_admin_token_success_iff (cfg : AuthConfig) (req : Request) :
    (verify_admin_token cfg req).success = true ↔
      str_starts_with req.authorization "Bearer " = true ∧
      ∃ payload, jwtDecode (str_drop req.authorization 7) cfg.jwt_secret cfg.now = some payload ∧
        payload.sub = "admin" := by
  unfold verify_admin_token
  split
  · rename_i hpre
    split
    · rename_i hdec
      simp [hpre, hdec]
    · rename_i payload hdec
      split
      · rename_i hsub
        simp [hpre, hdec, hsub]
      · rename_i hsub
        simp [hpre, hdec, hsub]
  · rename_i hpre
    exact ⟨fun hcontra => absurd hcontra (by decide), fun h => absurd h.1 hpre⟩

theorem C8_verify_never_errors (cfg : AuthConfig) (req : Request)
    (hm : req.method = "GET") :
    ∃ b : Bool, verify_handler cfg req = ⟨200, .verifyOk b⟩ ∧
      (b = true ↔ str_starts_with req.authorization "Bearer " = true ∧
        ∃ payload, jwtDecode (str_drop req.authorization 7) cfg.jwt_secret cfg.now = some payload ∧
          payload.sub = "admin") := by
  refine ⟨(verify_admin_token cfg req).success, ?_, verify_admin_token_success_iff cfg req⟩
  simp only [verify_handler, hm]
  rw [if_neg (by decide), if_neg (by decide)]
  cases (verify_admin_token cfg req).success <;> simp

/-- C8 witness: a token issued by `create_admin_token` verifies as valid; the
theorem's hypotheses are discharged at this GET request. -/
theorem C8_verify_never_errors_witness :
    ∃ b : Bool,
      verify_handler idCfg ⟨"GET", "Bearer " ++ create_admin_token idCfg, none⟩ =
        ⟨200, .verifyOk b⟩ ∧
      (b = true ↔
        str_starts_with ("Bearer " ++ create_admin_token idCfg) "Bearer " = true ∧
        ∃ payload,
          jwtDecode (str_drop ("Bearer " ++ create_admin_token idCfg) 7) idCfg.jwt_secret idCfg.now =
            some payload ∧ payload.sub = "admin") :=
  C8_verify_never_errors idCfg ⟨"GET", "Bearer " ++ create_admin_token idCfg, none⟩ rfl

/-! ## C2 and C9: the session-creation handler -/

/-- Reduction of the session-creation handler once the transport stages have
passed: POST method, parseable body, truthy `poll_id` and `session_token`. -/
lemma sessions_create_handler_eq (req : Request) (body : List (String × JValue))
    (db : DB) (hm : req.method = "POST") (hb : req.body = some body)
    (hpt : (jget body "poll_id").truthy = true)
    (hst : (jget body "session_token").truthy = true) :
    sessions_create_handler req db =
      match db.polls.find? (fun p => p.id == (jget body "poll_id").asInt) with
      | none => (error_response 404 "Poll not found", db)
      | some poll =>
        if poll.state ≠ "open" then
          (error_response 403 "Poll is not accepting responses", db)
        else
          match (db.sessions.filter
              (fun s => s.session_token == (jget body "session_token").asStr)).head? with
          | some s => (⟨200, .sessionOk s.id⟩, db)
          | none =>
            (⟨201, .sessionOk db.next_id⟩,
              { db with
                sessions := db.sessions ++
                  [⟨db.next_id, (jget body "poll_id").asInt, (jget body "session_token").asStr⟩]
                next_id := db.next_id + 1 }) := by
  simp [sessions_create_handler, hm, hb, hpt, hst]

/-- C2: once the request's poll resolves and is open, session creation is
idempotent in the token — when a session with the supplied `session_token`
already exists (looked up by token alone), the handler returns that session's
id and inserts nothing; and whenever a call answers with some `session_id`,
repeating the same request returns the same id and leaves the store as it
was. -/
theorem C2_session_create_idempotent (req : Request) (body : List (String × JValue))
    (db : DB) (poll : PollRow)
    (hm : req.method = "POST") (hb : req.body = some body)
    (hpt : (jget body "poll_id").truthy = true)
    (hst : (jget body "session_token").truthy = true)
    (hp : db.polls.find? (fun p => p.id == (jget body "poll_id").asInt) = some poll)
    (ho : poll.state = "open") :
    (∀ s0, (db.sessions.filter
        (fun s => s.session_token == (jget body "session_token").asStr)).head? = some s0 →
      sessions_create_handler req db = (⟨200, .sessionOk s0.id⟩, db)) ∧
    (∀ i r1 db1, sessions_create_handler req db = (r1, db1) → r1.body = .sessionOk i →
      (sessions_create_handler req db1).1.body = .sessionOk i ∧
      (sessions_create_handler req db1).2 = db1) := by
  rw [sessions_create_handler_eq req body db hm hb hpt hst]
  simp only [hp]
  rw [if_neg (by simp [ho])]
  constructor
  · intro s0 hs0
    rw [hs0]
  · intro i r1 db1 h1 hbody
    cases hf : (db.sessions.filter
        (fun s => s.session_token == (jget body "session_token").asStr)).head? with
    | some s =>
      rw [hf] at h1
      obtain ⟨hr1, hdb1⟩ := Prod.mk.injEq .. ▸ h1
      subst hdb1
      rw [← hr1] at hbody
      rw [sessions_create_handler_eq req body db hm hb hpt hst]
      simp only [hp]
      rw [if_neg (by simp [ho]), hf]
      exact ⟨hbody, rfl⟩
    | none =>
      rw [hf] at h1
      obtain ⟨hr1, hdb1⟩ := Prod.mk.injEq .. ▸ h1
      rw [← hr1] at hbody
      have hi : i = db.next_id := by
        have := RespBody.sessionOk.injEq .. ▸ hbody.symm
        omega
      subst hdb1
      rw [sessions_create_handler_eq req body _ hm hb hpt hst]
      have hfan : (db.sessions.filter
          (fun s => s.session_token == (jget body "session_token").asStr)) = [] :=
        List.head?_eq_none_iff.mp hf
      simp only [hp, List.filter_append, hfan]
      simp [hi, ho]

def pollOpen : PollRow := ⟨1, "Poll", none, "code2345", none, "open", false⟩

def dbOpen : DB := ⟨[pollOpen], [], [], [], [], 2⟩

def sessBody : List (String × JValue) :=
  [("poll_id", .jint 1), ("session_token", .jstr "tok1")]

def sessReq : Request := ⟨"POST", "", some sessBody⟩

/-- The store after the first session-creation call on `dbOpen`. -/
def dbAfterSess : DB := ⟨[pollOpen], [], [], [⟨2, 1, "tok1"⟩], [], 3⟩

/-- C2 witness: on an open poll with no stored sessions, the first call creates
session 2 and the repeated identical call returns the same id without touching
the store. -/
theorem C2_session_create_idempotent_witness :
    (sessions_create_handler sessReq dbAfterSess).1.body = .sessionOk 2 ∧
    (sessions_create_handler sessReq dbAfterSess).2 = dbAfterSess :=
  (C2_session_create_idempotent sessReq sessBody dbOpen pollOpen rfl rfl
    (by decide) (by decide) (by decide) rfl).2 2
    ⟨201, .sessionOk 2⟩ dbAfterSess (by decide) (by decide)

/-- C9: in the session-creation handler the request's poll is resolved and
gated before the idempotent token lookup — with a session carrying the supplied
token already stored, an unresolvable `poll_id` still fails 404 and a non-open
poll still fails 403; only when the request's poll is open is the existing
session returned, and nothing about that session's own poll is consulted. -/
theorem C9_session_gating_precedes_lookup (req : Request) (body : List (String × JValue))
    (db : DB) (s : SessionRow)
    (hm : req.method = "POST") (hb : req.body = some body)
    (hpt : (jget body "poll_id").truthy = true)
    (hst : (jget body "session_token").truthy = true)
    (hs : s ∈ db.sessions)
    (htok : s.session_token = (jget body "session_token").asStr) :
    (db.polls.find? (fun p => p.id == (jget body "poll_id").asInt) = none →
      sessions_create_handler req db = (error_response 404 "Poll not found", db)) ∧
    (∀ poll, db.polls.find? (fun p => p.id == (jget body "poll_id").asInt) = some poll →
      poll.state ≠ "open" →
      sessions_create_handler req db =
        (error_response 403 "Poll is not accepting responses", db)) ∧
    (∀ poll, db.polls.find? (fun p => p.id == (jget body "poll_id").asInt) = some poll →
      poll.state = "open" →
      ∃ s0, (db.sessions.filter
          (fun t => t.session_token == (jget body "session_token").asStr)).head? = some s0 ∧
        sessions_create_handler req db = (⟨200, .sessionOk s0.id⟩, db)) := by
  rw [sessions_create_handler_eq req body db hm hb hpt hst]
  refine ⟨?_, ?_, ?_⟩
  · intro hnone
    simp only [hnone]
  · intro poll hp hne
    simp only [hp]
    rw [if_pos hne]
  · intro poll hp ho
    have hmem : s ∈ db.sessions.filter
        (fun t => t.session_token == (jget body "session_token").asStr) := by
      rw [List.mem_filter]
      exact ⟨hs, by simp [htok]⟩
    cases hf : db.sessions.filter
        (fun t => t.session_token == (jget body "session_token").asStr) with
    | nil =>
      rw [hf] at hmem
      cases hmem
    | cons a t =>
      refine ⟨a, rfl, ?_⟩
      simp only [hp, List.head?_cons]
      rw [if_neg (by simp [ho])]

def pollClosed : PollRow := ⟨5, "Old", none, "code9876", none, "closed", false⟩

/-- A session whose own poll (id 5) is closed; its token will be reused in
requests naming other polls. -/
def sessForeign : SessionRow := ⟨7, 5, "tok1"⟩

def dbMix : DB := ⟨[pollOpen, pollClosed], [], [], [sessForeign], [], 10⟩

def sessBodyAbsent : List (String × JValue) :=
  [("poll_id", .jint 3), ("session_token", .jstr "tok1")]

def sessBodyClosed : List (String × JValue) :=
  [("poll_id", .jint 5), ("session_token", .jstr "tok1")]

/-- C9 witness: with session `tok1` stored (its own poll closed), a request for
an absent poll fails 404, a request for the closed poll fails 403, and a
request for the open poll returns the stored session although it belongs to
the closed poll. -/
theorem C9_session_gating_precedes_lookup_witness :
    sessions_create_handler ⟨"POST", "", some sessBodyAbsent⟩ dbMix =
      (error_response 404 "Poll not found", dbMix) ∧
    sessions_create_handler ⟨"POST", "", some sessBodyClosed⟩ dbMix =
      (error_response 403 "Poll is not accepting responses", dbMix) ∧
    sessions_create_handler ⟨"POST", "", some sessBody⟩ dbMix =
      (⟨200, .sessionOk 7⟩, dbMix) := by
  refine ⟨?_, ?_, ?_⟩
  · exact (C9_session_gating_precedes_lookup ⟨"POST", "", some sessBodyAbsent⟩ sessBodyAbsent
      dbMix sessForeign rfl rfl (by decide) (by decide) (by decide) rfl).1 (by decide)
  · exact (C9_session_gating_precedes_lookup ⟨"POST", "", some sessBodyClosed⟩ sessBodyClosed
      dbMix sessForeign rfl rfl (by decide) (by decide) (by decide) rfl).2.1
      pollClosed (by decide) (by decide)
  · obtain ⟨s0, hs0, hres⟩ := (C9_session_gating_precedes_lookup ⟨"POST", "", some sessBody⟩
      sessBody dbMix sessForeign rfl rfl (by decide) (by decide) (by decide) rfl).2.2
      pollOpen (by decide) rfl
    have heq : (dbMix.sessions.filter
        (fun t => t.session_token == (jget sessBody "session_token").asStr)).head? =
        some sessForeign := by decide
    have hs0' : s0 = sessForeign := (Option.some_inj.mp (heq.symm.trans hs0)).symm
    rw [hs0'] at hres
    exact hres

/-! ## C3 and C1: the response-submission handler -/

/-- Reduction of the submission handler once the transport stages have passed:
POST method, parseable body, valid field presence. -/
lemma responses_submit_handler_eq (req : Request) (body : List (String × JValue))
    (db : DB) (hm : req.method = "POST") (hb : req.body = some body)
    (hv : (validate_response_data body).valid = true) :
    responses_submit_handler req db =
      match db.sessions.find?
          (fun s => s.session_token == (jget body "session_token").asStr) with
      | none => (error_response 404 "Session not found", db)
      | some session =>
        match db.polls.find? (fun p => p.id == session.poll_id) with
        | none => (error_response 403 "Poll is not accepting responses", db)
        | some poll =>
          if poll.state ≠ "open" then
            (error_response 403 "Poll is not accepting responses", db)
          else
            match db.questions.find? (fun q =>
                q.id == (jget body "question_id").asInt && q.poll_id == session.poll_id) with
            | none => (error_response 404 "Question not found", db)
            | some _ =>
              match db.answer_options.find? (fun o =>
                  o.id == (jget body "answer_option_id").asInt &&
                  o.question_id == (jget body "question_id").asInt) with
              | none => (error_response 404 "Answer option not found", db)
              | some _ =>
                match (db.responses.filter (fun r =>
                    r.session_id == session.id &&
                    r.question_id == (jget body "question_id").asInt)).head? with
                | some ex =>
                  (⟨200, .submitOk true⟩,
                    { db with responses := db.responses.map (fun r =>
                        if r.id == ex.id then
                          { r with answer_option_id := (jget body "answer_option_id").asInt }
                        else r) })
                | none =>
                  (⟨200, .submitOk true⟩,
                    { db with
                      responses := db.responses ++
                        [⟨db.next_id, session.id, (jget body "question_id").asInt,
                          (jget body "answer_option_id").asInt⟩]
                      next_id := db.next_id + 1 }) := by
  simp [responses_submit_handler, hm, hb, hv]

/-- C3: the submission handler checks its failure conditions in source order —
unknown token, then the session's poll missing or not open, then a question
not belonging to that poll, then an option not belonging to that question —
returning the corresponding error with the store untouched; only when every
check passes does it answer success, and then a row for the session, question
and submitted option is in the store. -/
theorem C3_submit_check_order (req : Request) (body : List (String × JValue)) (db : DB)
    (hm : req.method = "POST") (hb : req.body = some body)
    (hv : (validate_response_data body).valid = true) :
    (db.sessions.find? (fun s => s.session_token == (jget body "session_token").asStr) = none →
      responses_submit_handler req db = (error_response 404 "Session not found", db)) ∧
    (∀ session,
      db.sessions.find? (fun s => s.session_token == (jget body "session_token").asStr) =
        some session →
      db.polls.find? (fun p => p.id == session.poll_id) = none →
      responses_submit_handler req db =
        (error_response 403 "Poll is not accepting responses", db)) ∧
    (∀ session poll,
      db.sessions.find? (fun s => s.session_token == (jget body "session_token").asStr) =
        some session →
      db.polls.find? (fun p => p.id == session.poll_id) = some poll →
      poll.state ≠ "open" →
      responses_submit_handler req db =
        (error_response 403 "Poll is not accepting responses", db)) ∧
    (∀ session poll,
      db.sessions.find? (fun s => s.session_token == (jget body "session_token").asStr) =
        some session →
      db.polls.find? (fun p => p.id == session.poll_id) = some poll →
      poll.state = "open" →
      db.questions.find? (fun q =>
        q.id == (jget body "question_id").asInt && q.poll_id == session.poll_id) = none →
      responses_submit_handler req db = (error_response 404 "Question not found", db)) ∧
    (∀ session poll question,
      db.sessions.find? (fun s => s.session_token == (jget body "session_token").asStr) =
        some session →
      db.polls.find? (fun p => p.id == session.poll_id) = some poll →
      poll.state = "open" →
      db.questions.find? (fun q =>
        q.id == (jget body "question_id").asInt && q.poll_id == session.poll_id) =
        some question →
      db.answer_options.find? (fun o =>
        o.id == (jget body "answer_option_id").asInt &&
        o.question_id == (jget body "question_id").asInt) = none →
      responses_submit_handler req db = (error_response 404 "Answer option not found", db)) ∧
    (∀ session poll question opt,
      db.sessions.find? (fun s => s.session_token == (jget body "session_token").asStr) =
        some session →
      db.polls.find? (fun p => p.id == session.poll_id) = some poll →
      poll.state = "open" →
      db.questions.find? (fun q =>
        q.id == (jget body "question_id").asInt && q.poll_id == session.poll_id) =
        some question →
      db.answer_options.find? (fun o =>
        o.id == (jget body "answer_option_id").asInt &&
        o.question_id == (jget body "question_id").asInt) = some opt →
      (responses_submit_handler req db).1 = ⟨200, .submitOk true⟩ ∧
      ∃ r ∈ (responses_submit_handler req db).2.responses,
        r.session_id = session.id ∧ r.question_id = (jget body "question_id").asInt ∧
        r.answer_option_id = (jget body "answer_option_id").asInt) := by
  rw [responses_submit_handler_eq req body db hm hb hv]
  refine ⟨?_, ?_, ?_, ?_, ?_, ?_⟩
  · intro hsn
    simp only [hsn]
  · intro session hs hpn
    simp only [hs, hpn]
  · intro session poll hs hpf hne
    simp only [hs, hpf]
    rw [if_pos hne]
  · intro session poll hs hpf ho hqn
    simp only [hs, hpf, hqn]
    rw [if_neg (by simp [ho])]
  · intro session poll question hs hpf ho hqf han
    simp only [hs, hpf, hqf, han]
    rw [if_neg (by simp [ho])]
  · intro session poll question opt hs hpf ho hqf haf
    simp only [hs, hpf, hqf, haf]
    rw [if_neg (by simp [ho])]
    cases hf : (db.responses.filter (fun r =>
        r.session_id == session.id &&
        r.question_id == (jget body "question_id").asInt)).head? with
    | some ex =>
      have hexf : ex ∈ db.responses.filter (fun r =>
          r.session_id == session.id &&
          r.question_id == (jget body "question_id").asInt) :=
        List.mem_of_mem_head? hf
      have hexp := List.of_mem_filter hexf
      rw [Bool.and_eq_true, beq_iff_eq, beq_iff_eq] at hexp
      refine ⟨rfl, ⟨{ ex with answer_option_id := (jget body "answer_option_id").asInt },
        ?_, hexp.1, hexp.2, rfl⟩⟩
      have hmem := List.mem_map_of_mem
        (fun r => if r.id == ex.id then
          { r with answer_option_id := (jget body "answer_option_id").asInt } else r)
        (List.mem_of_mem_filter hexf)
      simpa using hmem
    | none =>
      exact ⟨rfl, ⟨⟨db.next_id, session.id, (jget body "question_id").asInt,
        (jget body "answer_option_id").asInt⟩, by simp, rfl, rfl, rfl⟩⟩

def qRow : QuestionRow := ⟨3, 1, "Q1", 0, "horizontal_bar"⟩

def aRow : AnswerOptionRow := ⟨4, 3, "A", 0⟩

def sessRow : SessionRow := ⟨2, 1, "tok1"⟩

/-- A store with an open poll, one question with one option, and one session. -/
def dbFull : DB := ⟨[pollOpen], [qRow], [aRow], [sessRow], [], 5⟩

def submitBody : List (String × JValue) :=
  [("session_token", .jstr "tok1"), ("question_id", .jint 3), ("answer_option_id", .jint 4)]

def submitReq : Request := ⟨"POST", "", some submitBody⟩

def submitBodyBadTok : List (String × JValue) :=
  [("session_token", .jstr "nope"), ("question_id", .jint 3), ("answer_option_id", .jint 4)]

def submitBodyBadQ : List (String × JValue) :=
  [("session_token", .jstr "tok1"), ("question_id", .jint 77), ("answer_option_id", .jint 4)]

def submitBodyBadOpt : List (String × JValue) :=
  [("session_token", .jstr "tok1"), ("question_id", .jint 3), ("answer_option_id", .jint 88)]

/-- A store whose only session points at the closed poll. -/
def dbClosedSub : DB := ⟨[pollClosed], [qRow], [aRow], [⟨2, 5, "tok1"⟩], [], 6⟩

/-- C3 witness: each failure branch and the success branch evaluated on
concrete stores. -/
theorem C3_submit_check_order_witness :
    responses_submit_handler ⟨"POST", "", some submitBodyBadTok⟩ dbFull =
      (error_response 404 "Session not found", dbFull) ∧
    responses_submit_handler ⟨"POST", "", some submitBodyBadQ⟩ dbFull =
      (error_response 404 "Question not found", dbFull) ∧
    responses_submit_handler ⟨"POST", "", some submitBodyBadOpt⟩ dbFull =
      (error_response 404 "Answer option not found", dbFull) ∧
    responses_submit_handler ⟨"POST", "", some submitBody⟩ dbClosedSub =
      (error_response 403 "Poll is not accepting responses", dbClosedSub) ∧
    ((responses_submit_handler submitReq dbFull).1 = ⟨200, .submitOk true⟩ ∧
      ∃ r ∈ (responses_submit_handler submitReq dbFull).2.responses,
        r.session_id = sessRow.id ∧ r.question_id = (jget submitBody "question_id").asInt ∧
        r.answer_option_id = (jget submitBody "answer_option_id").asInt) := by
  refine ⟨?_, ?_, ?_, ?_, ?_⟩
  · exact (C3_submit_check_order ⟨"POST", "", some submitBodyBadTok⟩ submitBodyBadTok dbFull
      rfl rfl (by decide)).1 (by decide)
  · exact (C3_submit_check_order ⟨"POST", "", some submitBodyBadQ⟩ submitBodyBadQ dbFull
      rfl rfl (by decide)).2.2.2.1 sessRow pollOpen (by decide) (by decide) rfl (by decide)
  · exact (C3_submit_check_order ⟨"POST", "", some submitBodyBadOpt⟩ submitBodyBadOpt dbFull
      rfl rfl (by decide)).2.2.2.2.1 sessRow pollOpen qRow (by decide) (by decide) rfl
      (by decide) (by decide)
  · exact (C3_submit_check_order ⟨"POST", "", some submitBody⟩ submitBody dbClosedSub
      rfl rfl (by decide)).2.2.1 ⟨2, 5, "tok1"⟩ pollClosed (by decide) (by decide) (by decide)
  · exact (C3_submit_check_order submitReq submitBody dbFull
      rfl rfl (by decide)).2.2.2.2.2 sessRow pollOpen qRow aRow (by decide) (by decide) rfl
      (by decide) (by decide)

/-! ## C1: the per-(session, question) response invariant -/

/-- The stored responses of one (session, question) pair. -/
def responsesFor (db : DB) (sid qid : Int) : List ResponseRow :=
  db.responses.filter (fun r => r.session_id == sid && r.question_id == qid)

/-- At most one stored response per (session, question) pair. -/
def ResponseUnique (db : DB) : Prop :=
  ∀ sid qid : Int, (responsesFor db sid qid).length ≤ 1

/-- Store discipline the persistence layer guarantees: response ids are
pairwise distinct and below the id counter. -/
def ResponsesWF (db : DB) : Prop :=
  (db.responses.map (fun r => r.id)).Nodup ∧ ∀ r ∈ db.responses, r.id < db.next_id

lemma responseUnique_of_short (db : DB) (h : db.responses.length ≤ 1) :
    ResponseUnique db :=
  fun _ _ => le_trans (List.length_filter_le _ _) h

lemma filter_eq_single_of_head_short {α : Type} (l : List α) (a : α)
    (hh : l.head? = some a) (hlen : l.length ≤ 1) : l = [a] := by
  cases l with
  | nil => cases hh
  | cons b t =>
    obtain rfl : b = a := by simpa using hh
    cases t with
    | nil => rfl
    | cons c u => simp at hlen

lemma upd_pred_eq (exid aid sid qid : Int) (r : ResponseRow) :
    ((if r.id == exid then { r with answer_option_id := aid } else r).session_id == sid &&
     (if r.id == exid then { r with answer_option_id := aid } else r).question_id == qid) =
    (r.session_id == sid && r.question_id == qid) := by
  split <;> rfl

lemma upd_id_eq (exid aid : Int) (r : ResponseRow) :
    (if r.id == exid then { r with answer_option_id := aid } else r).id = r.id := by
  split <;> rfl

/-- Filtering a pair after the update step is the update step mapped over the
pair's previous rows. -/
lemma filter_upd (l : List ResponseRow) (exid aid sid qid : Int) :
    (l.map (fun r => if r.id == exid then { r with answer_option_id := aid } else r)).filter
      (fun r => r.session_id == sid && r.question_id == qid) =
    (l.filter (fun r => r.session_id == sid && r.question_id == qid)).map
      (fun r => if r.id == exid then { r with answer_option_id := aid } else r) := by
  rw [List.filter_map]
  congr 1
  exact List.filter_congr (fun r _ => upd_pred_eq exid aid sid qid r)

/-- C1: the submission handler maintains at-most-one-response-per-(session,
question) — a successful submission for a pair that already has a row
overwrites that row's `answer_option_id` instead of inserting, so afterwards
the pair's stored rows carry exactly the option just submitted, the invariant
still holds for every pair, and all other pairs are untouched; chained, a
sequence of submissions leaves exactly the last option. -/
theorem C1_response_upsert (req : Request) (body : List (String × JValue)) (db : DB)
    (session : SessionRow) (poll : PollRow) (question : QuestionRow) (opt : AnswerOptionRow)
    (hm : req.method = "POST") (hb : req.body = some body)
    (hv : (validate_response_data body).valid = true)
    (hs : db.sessions.find?
      (fun s => s.session_token == (jget body "session_token").asStr) = some session)
    (hpf : db.polls.find? (fun p => p.id == session.poll_id) = some poll)
    (ho : poll.state = "open")
    (hqf : db.questions.find? (fun q =>
      q.id == (jget body "question_id").asInt && q.poll_id == session.poll_id) = some question)
    (haf : db.answer_options.find? (fun o =>
      o.id == (jget body "answer_option_id").asInt &&
      o.question_id == (jget body "question_id").asInt) = some opt)
    (hu : ResponseUnique db) (hw : ResponsesWF db) :
    (responses_submit_handler req db).1 = ⟨200, .submitOk true⟩ ∧
    (responsesFor (responses_submit_handler req db).2 session.id
        (jget body "question_id").asInt).map (fun r => r.answer_option_id) =
      [(jget body "answer_option_id").asInt] ∧
    ResponseUnique (responses_submit_handler req db).2 ∧
    ResponsesWF (responses_submit_handler req db).2 ∧
    (∀ sid2 qid2 : Int, ¬(sid2 = session.id ∧ qid2 = (jget body "question_id").asInt) →
      responsesFor (responses_submit_handler req db).2 sid2 qid2 =
        responsesFor db sid2 qid2) := by
  rw [responses_submit_handler_eq req body db hm hb hv]
  simp only [hs, hpf, hqf, haf]
  rw [if_neg (by simp [ho])]
  cases hf : (db.responses.filter (fun r =>
      r.session_id == session.id &&
      r.question_id == (jget body "question_id").asInt)).head? with
  | none =>
    have hfan : db.responses.filter (fun r =>
        r.session_id == session.id &&
        r.question_id == (jget body "question_id").asInt) = [] :=
      List.head?_eq_none_iff.mp hf
    refine ⟨rfl, ?_, ?_, ?_, ?_⟩
    · simp [responsesFor, List.filter_append, hfan]
    · intro sid2 qid2
      simp only [responsesFor, List.filter_append]
      by_cases hpr : ((session.id : Int) == sid2 &&
          ((jget body "question_id").asInt == qid2)) = true
      · rw [Bool.and_eq_true, beq_iff_eq, beq_iff_eq] at hpr
        obtain ⟨h1, h2⟩ := hpr
        subst h1
        subst h2
        simp [hfan]
      · have hpr' : ((session.id : Int) == sid2 &&
            ((jget body "question_id").asInt == qid2)) = false :=
          Bool.eq_false_iff.mpr hpr
        have : (List.filter (fun r => r.session_id == sid2 && r.question_id == qid2)
            [(⟨db.next_id, session.id, (jget body "question_id").asInt,
              (jget body "answer_option_id").asInt⟩ : ResponseRow)]) = [] := by
          simp [List.filter_cons, hpr']
        rw [this, List.append_nil]
        exact hu sid2 qid2
    · constructor
      · simp only [List.map_append]
        rw [List.nodup_append]
        refine ⟨hw.1, by simp, ?_⟩
        intro a ha hb2
        simp only [List.map_cons, List.map_nil, List.mem_singleton] at hb2
        rw [List.mem_map] at ha
        obtain ⟨r, hr, rfl⟩ := ha
        exact absurd hb2 (Int.ne_of_lt (hw.2 r hr))
      · intro r hr
        simp only [List.mem_append, List.mem_singleton] at hr
        rcases hr with hr | rfl
        · exact lt_trans (hw.2 r hr) (lt_add_one _)
        · exact lt_add_one _
    · intro sid2 qid2 hne
      simp only [responsesFor, List.filter_append]
      have hpr : ((session.id : Int) == sid2 &&
          ((jget body "question_id").asInt == qid2)) = false := by
        refine Bool.eq_false_iff.mpr ?_
        intro hcontra
        rw [Bool.and_eq_true, beq_iff_eq, beq_iff_eq] at hcontra
        exact hne ⟨hcontra.1.symm, hcontra.2.symm⟩
      have : (List.filter (fun r => r.session_id == sid2 && r.question_id == qid2)
          [(⟨db.next_id, session.id, (jget body "question_id").asInt,
            (jget body "answer_option_id").asInt⟩ : ResponseRow)]) = [] := by
        simp [List.filter_cons, hpr]
      rw [this, List.append_nil]
  | some ex =>
    have hfex : db.responses.filter (fun r =>
        r.session_id == session.id &&
        r.question_id == (jget body "question_id").asInt) = [ex] :=
      filter_eq_single_of_head_short _ ex hf
        (hu session.id (jget body "question_id").asInt)
    have hexf : ex ∈ db.responses.filter (fun r =>
        r.session_id == session.id &&
        r.question_id == (jget body "question_id").asInt) := by
      rw [hfex]
      exact List.mem_singleton.mpr rfl
    have hexm : ex ∈ db.responses := List.mem_of_mem_filter hexf
    have hexp := List.of_mem_filter hexf
    rw [Bool.and_eq_true, beq_iff_eq, beq_iff_eq] at hexp
    refine ⟨rfl, ?_, ?_, ?_, ?_⟩
    · simp only [responsesFor]
      rw [filter_upd, hfex]
      simp
    · intro sid2 qid2
      simp only [responsesFor]
      rw [filter_upd, List.length_map]
      exact hu sid2 qid2
    · constructor
      · have : (db.responses.map (fun r =>
            if r.id == ex.id then
              { r with answer_option_id := (jget body "answer_option_id").asInt }
            else r)).map (fun r => r.id) = db.responses.map (fun r => r.id) := by
          rw [List.map_map]
          exact List.map_congr_left (fun r _ =>
            upd_id_eq ex.id ((jget body "answer_option_id").asInt) r)
        rw [this]
        exact hw.1
      · intro r hr
        rw [List.mem_map] at hr
        obtain ⟨r0, hr0, rfl⟩ := hr
        have := hw.2 r0 hr0
        rw [upd_id_eq]
        exact this
    · intro sid2 qid2 hne
      simp only [responsesFor]
      rw [filter_upd]
      have hcong : ∀ r ∈ db.responses.filter
          (fun r => r.session_id == sid2 && r.question_id == qid2),
          (if r.id == ex.id then
            { r with answer_option_id := (jget body "answer_option_id").asInt }
          else r) = r := by
        intro r hrf
        have hrm : r ∈ db.responses := List.mem_of_mem_filter hrf
        have hrp := List.of_mem_filter hrf
        rw [Bool.and_eq_true, beq_iff_eq, beq_iff_eq] at hrp
        rw [if_neg ?_]
        intro hid
        rw [beq_iff_eq] at hid
        have hre : r = ex := List.inj_on_of_nodup_map hw.1 hrm hexm hid
        subst hre
        exact hne ⟨hrp.1 ▸ hexp.1 ▸ rfl, hrp.2 ▸ hexp.2 ▸ rfl⟩
      calc (db.responses.filter
            (fun r => r.session_id == sid2 && r.question_id == qid2)).map
            (fun r => if r.id == ex.id then
              { r with answer_option_id := (jget body "answer_option_id").asInt } else r)
          = (db.responses.filter
              (fun r => r.session_id == sid2 && r.question_id == qid2)).map id :=
            List.map_congr_left hcong
        _ = db.responses.filter (fun r => r.session_id == sid2 && r.question_id == qid2) :=
            List.map_id _

/-- A store like `dbFull` but with a stored response for (session 2, question
3) pointing at option 9. -/
def dbResp : DB := ⟨[pollOpen], [qRow], [aRow], [sessRow], [⟨4, 2, 3, 9⟩], 5⟩

/-- C1 witness: submitting option 4 for a pair that already holds option 9
answers success and leaves exactly option 4 stored for the pair. -/
theorem C1_response_upsert_witness :
    (responses_submit_handler submitReq dbResp).1 = ⟨200, .submitOk true⟩ ∧
    (responsesFor (responses_submit_handler submitReq dbResp).2 sessRow.id
        (jget submitBody "question_id").asInt).map (fun r => r.answer_option_id) =
      [(jget submitBody "answer_option_id").asInt] ∧
    ResponseUnique (responses_submit_handler submitReq dbResp).2 ∧
    ResponsesWF (responses_submit_handler submitReq dbResp).2 ∧
    (∀ sid2 qid2 : Int, ¬(sid2 = sessRow.id ∧ qid2 = (jget submitBody "question_id").asInt) →
      responsesFor (responses_submit_handler submitReq dbResp).2 sid2 qid2 =
        responsesFor dbResp sid2 qid2) :=
  C1_response_upsert submitReq submitBody dbResp sessRow pollOpen qRow aRow rfl rfl
    (by decide) (by decide) (by decide) rfl (by decide) (by decide)
    (responseUnique_of_short dbResp (by decide)) ⟨by decide, by decide⟩

/-! ## C6: question and option ordering -/

/-- C6: a successful question creation assigns `question_order` equal to one
plus the maximum existing order for that poll (zero when the poll has no
questions), stores the question, and persists each supplied answer option with
`option_order` equal to its 0-based position in the input array, `option_text`
taken from the entry at that position, in input order. -/
theorem C6_question_and_option_order (cfg : AuthConfig) (req : Request)
    (body : List (String × JValue)) (db : DB) (poll : PollRow)
    (hm : req.method = "POST") (hb : req.body = some body)
    (hA : (verify_admin_token cfg req).success = true)
    (hv : (validate_question_data body).valid = true)
    (hpf : db.polls.find? (fun p => p.id == (jget body "poll_id").asInt) = some poll) :
    ∃ q opts?,
      (questions_create_handler cfg req db).1 = ⟨201, .questionOk q opts?⟩ ∧
      q.poll_id = (jget body "poll_id").asInt ∧
      q.question_order = (match ((db.questions.filter
          (fun x => x.poll_id == (jget body "poll_id").asInt)).map
          (fun x => x.question_order)).max? with
        | some m => m + 1
        | none => 0) ∧
      q ∈ (questions_create_handler cfg req db).2.questions ∧
      (∀ opts, jget body "answer_options" = .jlist opts → opts ≠ [] →
        ∃ rows, opts? = some rows ∧
          rows.map (fun o => o.option_order) = List.range opts.length ∧
          rows.map (fun o => o.option_text) = opts.map optionTextOf ∧
          rows.map (fun o => o.question_id) = List.replicate opts.length q.id ∧
          ∀ o ∈ rows, o ∈ (questions_create_handler cfg req db).2.answer_options) := by
  simp only [questions_create_handler, hm, hb, hA, hv, if_true]
  rw [if_neg (show ¬("POST" = "OPTIONS") by decide),
    if_neg (show ¬("POST" ≠ "POST") by decide)]
  simp only [hpf]
  cases hao : jget body "answer_options" with
  | jlist opts =>
    simp only []
    cases hopts : opts.isEmpty with
    | true =>
      rw [if_pos rfl]
      refine ⟨_, none, rfl, rfl, rfl, by simp, ?_⟩
      intro opts2 hopts2 hne
      obtain rfl : opts = opts2 := by
        injection hopts2
      exact absurd (List.isEmpty_iff.mp hopts) hne
    | false =>
      rw [if_neg (by simp)]
      refine ⟨_, _, rfl, rfl, rfl, by simp, ?_⟩
      intro opts2 hopts2 hne
      obtain rfl : opts = opts2 := by
        injection hopts2
      refine ⟨_, rfl, ?_, ?_, ?_, ?_⟩
      · rw [List.map_map]
        exact List.enum_map_fst opts
      · have h2 : (opts.enum.map (fun p =>
            (AnswerOptionRow.mk (db.next_id + 1 + p.fst) db.next_id
              (optionTextOf p.snd) p.fst))).map (fun o => o.option_text) =
            (opts.enum.map Prod.snd).map optionTextOf := by
          rw [List.map_map, List.map_map]
          rfl
        rw [h2, List.enum_map_snd]
      · rw [List.map_map]
        calc List.map ((fun o => o.question_id) ∘ fun p =>
              (AnswerOptionRow.mk (db.next_id + 1 + (p.fst : Int)) db.next_id
                (optionTextOf p.snd) p.fst)) opts.enum
            = List.map (fun _ => (db.next_id : Int)) opts.enum := rfl
          _ = List.replicate opts.enum.length (db.next_id : Int) := List.map_const' _ _
          _ = List.replicate opts.length (db.next_id : Int) := by rw [List.enum_length]
      · intro o ho
        simp only [List.mem_append]
        exact Or.inr ho
  | jnull =>
    simp only []
    refine ⟨_, none, rfl, rfl, rfl, by simp, ?_⟩
    intro opts2 hopts2 hne
    cases hopts2
  | jbool b =>
    simp only []
    refine ⟨_, none, rfl, rfl, rfl, by simp, ?_⟩
    intro opts2 hopts2 hne
    cases hopts2
  | jint n =>
    simp only []
    refine ⟨_, none, rfl, rfl, rfl, by simp, ?_⟩
    intro opts2 hopts2 hne
    cases hopts2
  | jstr s =>
    simp only []
    refine ⟨_, none, rfl, rfl, rfl, by simp, ?_⟩
    intro opts2 hopts2 hne
    cases hopts2
  | jdict fs =>
    simp only []
    refine ⟨_, none, rfl, rfl, rfl, by simp, ?_⟩
    intro opts2 hopts2 hne
    cases hopts2

/-- A valid admin Authorization header for the `idCfg` environment. -/
def adminAuth : String := "Bearer " ++ create_admin_token idCfg

def qBody : List (String × JValue) :=
  [("poll_id", .jint 1), ("question_text", .jstr "Q"),
   ("answer_options", .jlist [.jdict [("option_text", .jstr "A")],
                              .jdict [("option_text", .jstr "B")]])]

def qReq : Request := ⟨"POST", adminAuth, some qBody⟩

/-- The store after the first question creation on `dbOpen`. -/
def dbQ1 : DB := ⟨[pollOpen], [⟨2, 1, "Q", 0, "horizontal_bar"⟩],
  [⟨3, 2, "A", 0⟩, ⟨4, 2, "B", 1⟩], [], [], 5⟩

/-- C6 witness: the spec scenario — options A and B on an empty poll give
question_order 0 with option orders [0, 1], and a second question on the
resulting store gets question_order 1. -/
theorem C6_question_and_option_order_witness :
    (∃ q opts?, (questions_create_handler idCfg qReq dbOpen).1 = ⟨201, .questionOk q opts?⟩ ∧
      q.question_order = 0 ∧
      ∃ rows, opts? = some rows ∧ rows.map (fun o => o.option_order) = [0, 1]) ∧
    (∃ q opts?, (questions_create_handler idCfg qReq dbQ1).1 = ⟨201, .questionOk q opts?⟩ ∧
      q.question_order = 1) ∧
    (questions_create_handler idCfg qReq dbOpen).2 = dbQ1 := by
  refine ⟨?_, ?_, by decide⟩
  · obtain ⟨q, opt?, h1, hpid, hord, hmem, hopt⟩ :=
      C6_question_and_option_order idCfg qReq qBody dbOpen pollOpen rfl rfl
        (by decide) (by decide) (by decide)
    obtain ⟨rows, hrows, hord2, htext, hqid, hmem2⟩ :=
      hopt _ rfl (List.cons_ne_nil _ _)
    exact ⟨q, opt?, h1, by rw [hord]; rfl, rows, hrows, by rw [hord2]; rfl⟩
  · obtain ⟨q, opt?, h1, hpid, hord, hmem, hopt⟩ :=
      C6_question_and_option_order idCfg qReq qBody dbQ1 pollOpen rfl rfl
        (by decide) (by decide) (by decide)
    exact ⟨q, opt?, h1, by rw [hord]; decide⟩

/-! ## C7: poll creation -/

/-- C7: for an authorized, valid poll-creation request, a slug already in use
yields `SlugConflict` (409) with the store untouched; otherwise, whenever the
access-code loop produces a code, the poll is persisted with `state = "draft"`
and `results_revealed = false`, the password hashed exactly when one is
supplied, and the response carries the generated access code, title, slug,
state and results_revealed of the stored row. -/
theorem C7_poll_create (cfg : AuthConfig) (req : Request) (body : List (String × JValue))
    (db : DB) (rand : Nat → Nat) (fuel : Nat)
    (hm : req.method = "POST") (hb : req.body = some body)
    (hA : (verify_admin_token cfg req).success = true)
    (hv : (validate_poll_data body).valid = true) :
    ((jget body "slug").truthy = true →
      db.polls.any (fun p => p.slug == some (jget body "slug").asStr) = true →
      polls_create_handler cfg req db rand fuel =
        some (error_response 409 "Slug already in use", db)) ∧
    (((jget body "slug").truthy &&
        db.polls.any (fun p => p.slug == some (jget body "slug").asStr)) = false →
      ∀ code, find_unique_code db.polls rand fuel 0 = some code →
        polls_create_handler cfg req db rand fuel =
          some (⟨201, .pollOk db.next_id (jget body "title").asStr code
              (slugStoredOf (jget body "slug")) "draft" false⟩,
            { db with
              polls := db.polls ++
                [{ id := db.next_id
                   title := (jget body "title").asStr
                   slug := slugStoredOf (jget body "slug")
                   access_code := code
                   password_hash :=
                     if (jget body "password").truthy then
                       some (hash_password cfg (jget body "password").asStr)
                     else none
                   state := "draft"
                   results_revealed := false }]
              next_id := db.next_id + 1 })) := by
  simp only [polls_create_handler, hm, hb, hA, hv, if_true]
  rw [if_neg (show ¬("POST" = "OPTIONS") by decide),
    if_neg (show ¬("POST" ≠ "POST") by decide)]
  constructor
  · intro ht hc
    rw [if_pos (by rw [ht, hc]; rfl)]
  · intro hcf code hcode
    rw [if_neg (by rw [hcf]; exact Bool.false_ne_true)]
    simp only [hcode]

def pBody : List (String × JValue) :=
  [("title", .jstr "T"), ("slug", .jstr "my-poll"), ("password", .jstr "pass1234")]

def pReq : Request := ⟨"POST", adminAuth, some pBody⟩

/-- A store already holding a poll with slug `my-poll`. -/
def dbSlug : DB :=
  ⟨[⟨1, "P", some "my-poll", "codeaaaa", none, "open", false⟩], [], [], [], [], 2⟩

/-- C7 witness: the same request conflicts on a store that has the slug and
succeeds on an empty store, persisting draft state, hashed password, and
returning the generated code. -/
theorem C7_poll_create_witness :
    polls_create_handler idCfg pReq dbSlug (fun _ => 0) 1 =
      some (error_response 409 "Slug already in use", dbSlug) ∧
    polls_create_handler idCfg pReq emptyDB (fun _ => 0) 1 =
      some (⟨201, .pollOk 1 "T" "aaaaaaaa" (some "my-poll") "draft" false⟩,
        { emptyDB with
          polls := [{ id := 1, title := "T", slug := some "my-poll",
                      access_code := "aaaaaaaa", password_hash := some "pass1234",
                      state := "draft", results_revealed := false }]
          next_id := 2 }) := by
  constructor
  · exact (C7_poll_create idCfg pReq pBody dbSlug (fun _ => 0) 1 rfl rfl
      (by decide) (by decide)).1 (by decide) (by decide)
  · exact (C7_poll_create idCfg pReq pBody emptyDB (fun _ => 0) 1 rfl rfl
      (by decide) (by decide)).2 (by decide) "aaaaaaaa" (by decide)

end LivePoll
